import Mathlib

/-!
Verification model of `src/app.py` (dusturia-streamlit): a Streamlit chat
application that turns natural-language questions into SQL via an LLM call,
executes the SQL, and post-processes the result.

The embedding is shallow: the external collaborators (the LLM completion
endpoint, the SQL database driver, the history/row renderers used for string
interpolation) are fields of an `Env` record, so each theorem quantifies over
their behaviour or pins it to a concrete instance.  The Streamlit session
state (`st.session_state`) is an explicit `SessionState` record; the two UI
triggers (Connect button, chat submit) are functions on it.  Calls to the LLM
and the database are recorded in an event trace so that claims about "no
network call" become statements about the trace.
-/

/-- Role of a conversation message: `AIMessage` or `HumanMessage` in the code. -/
inductive Role where
  | AI
  | Human
deriving DecidableEq, Repr

/-- A role-tagged chat message (`langchain_core.messages` object). -/
structure Message where
  role : Role
  content : String
deriving DecidableEq, Repr

/-- A scalar cell of a SQL result row. -/
inductive Value where
  | int (n : Int)
  | str (s : String)
deriving DecidableEq, Repr

/-- Python `str(...)` rendering of a scalar, as used by the f-string
`f"There were {result[0][0]} decisions."`. -/
def Value.toText : Value → String
  | .int n => toString n
  | .str s => s

/-- Observable external calls made while handling one submit. -/
inductive Event where
  | llmCall (prompt : String)
  | sqlExec (query : String)
deriving DecidableEq, Repr

/-- Whether an event is an LLM completion request (network I/O to the provider). -/
def Event.isLlm : Event → Bool
  | .llmCall _ => true
  | .sqlExec _ => false

/-- External collaborators of the pipeline, abstracted as pure functions:
the LLM completion endpoint, the database `run` operation (which can raise,
modelled as `Except`), the schema text returned by `db.get_table_info()`,
and the textual renderings used when a Python object is interpolated into a
string (the chat-history list in the prompt, the raw result object). -/
structure Env where
  llm : String → String
  dbRun : String → Except String (List (List Value))
  schema : String
  renderHistory : List Message → String
  showRows : List (List Value) → String

/-- Session state: the chat history plus the presence of the connected
database accessor and LLM client (`st.session_state.db` / `.llm`), each
identified by an object id when present. -/
structure SessionState where
  chatHistory : List Message
  db : Option Nat
  llm : Option Nat
deriving DecidableEq, Repr

/-! ### The SQL-generation prompt template (lines 16-40 of `app.py`)

The template is a constant string with three placeholders `schema`,
`chat_history`, `question`; it is transcribed byte-for-byte, split at the
placeholders and at the first few-shot example so that the example's verbatim
presence is visible in the definition.  Apostrophes are written `\x27`. -/

/-- Text of the template before the `schema` placeholder. -/
def tplA : String :=
  "\n    You are a legal analyst specializing in the Moroccan Constitutional Court\x27s decisions. You are interacting with a user who is asking you questions about the court\x27s database.\n    Based on the table schema below, write a SQL query that would retrieve the year, specialty (type of decision), and summary from the court\x27s decisions database. Limit the results to avoid retrieving too much data at once.\n    \n    <SCHEMA>"

/-- Text between the `schema` and `chat_history` placeholders. -/
def tplB : String :=
  "</SCHEMA>\n    \n    Conversation History: "

/-- Text between the `chat_history` placeholder and the first few-shot
example. -/
def tplC : String :=
  "\n    \n    Write only the SQL query and nothing else. Do not wrap the SQL query in any other text, not even backticks.\n    \n    For example:\n    "

/-- The question line of the first few-shot example, verbatim, up to its SQL. -/
def exampleQ2022 : String :=
  "Question: Retrieve all decisions made in the year 2022.\n    SQL Query: "

/-- The SQL of the first few-shot example, verbatim. -/
def exampleSql2022 : String :=
  "SELECT year, specialty, LEFT(summary, 200) as summary_excerpt FROM dusturia_records WHERE year = 2022 LIMIT 10;"

/-- Text between the first example's SQL and the `question` placeholder. -/
def tplD : String :=
  "\n    \n    Question: What were the decisions related to electoral disputes?\n    SQL Query: SELECT year, specialty, LEFT(summary, 200) as summary_excerpt FROM dusturia_records WHERE specialty = \x27Electoral Disputes\x27 LIMIT 10;\n    \n    Question: List the year, type, and summary of decision number 121/1963.\n    SQL Query: SELECT year, specialty, LEFT(summary, 200) as summary_excerpt FROM dusturia_records WHERE decision_number = \x27121/1963\x27 LIMIT 1;\n    \n    Your turn:\n    \n    Question: "

/-- Text after the `question` placeholder. -/
def tplE : String :=
  "\n    SQL Query:\n    "

/-- `ChatPromptTemplate.from_template(template)` filled with the three
bindings: literal substitution of `schema`, `chat_history`, `question`. -/
def fillSqlTemplate (schema chatHistory question : String) : String :=
  tplA ++ schema ++ tplB ++ chatHistory ++ tplC ++ exampleQ2022
    ++ exampleSql2022 ++ tplD ++ question ++ tplE

/-- The prompt the SQL chain sends for a given history and question. -/
def genPrompt (env : Env) (hist : List Message) (question : String) : String :=
  fillSqlTemplate env.schema (env.renderHistory hist) question

/-- `get_sql_chain(db, llm)`: the runnable
`RunnablePassthrough.assign(schema=...) | prompt | llm | StrOutputParser()`,
as the function it denotes — fill the template, call the LLM, pass the
completion text through unmodified. -/
def get_sql_chain (env : Env) (hist : List Message) : String → String :=
  fun question => env.llm (genPrompt env hist question)

/-- Python truthiness of the chain object returned by `get_sql_chain`: a
`RunnableSequence` defines no `__bool__`/`__len__`, so it is always truthy.
Consequently the `if not sql_chain:` guard in `get_response` can never take
its early-return branch. -/
def chainTruthy (_c : String → String) : Bool :=
  true

/-- Return value of `get_response`: a formatted string, the raw result object
passed through unchanged, or `None`. -/
inductive RespValue where
  | msg (s : String)
  | raw (rows : List (List Value))
  | noResp
deriving DecidableEq, Repr

/-- Python truthiness of the response (`if response:`): `None` and empty
containers are falsy. -/
def RespValue.truthy : RespValue → Bool
  | .msg s => s ≠ ""
  | .raw rows => rows ≠ []
  | .noResp => false

/-- Rendering of the response when interpolated as message content. -/
def respText (env : Env) : RespValue → String
  | .msg s => s
  | .raw rows => env.showRows rows
  | .noResp => ""

/-- Characters Python `str.strip()` removes (ASCII whitespace). -/
def isPySpace (c : Char) : Bool :=
  c = ' ' || c = '\t' || c = '\n' || c = Char.ofNat 13 || c = Char.ofNat 11
    || c = Char.ofNat 12

/-- Python `s.strip()`. -/
def pyStrip (s : String) : String :=
  ⟨((s.toList.dropWhile isPySpace).reverse.dropWhile isPySpace).reverse⟩

/-- `p` is a leading segment of `s`. -/
def chPre : List Char → List Char → Bool
  | [], _ => true
  | _ :: _, [] => false
  | a :: as, b :: bs => a = b && chPre as bs

/-- `p` occurs contiguously inside `s` (Python `p in s`). -/
def chSub (p s : List Char) : Bool :=
  match s with
  | [] => chPre p []
  | _ :: rest => chPre p s || chSub p rest

/-- Python `"COUNT" in query.upper()`. -/
def hasCountToken (query : String) : Bool :=
  chSub ("COUNT".toList) (query.toList.map Char.toUpper)

/-- `result[0][0]`: first scalar of the result, `none` when indexing would
raise `IndexError`. -/
def firstScalar (rows : List (List Value)) : Option Value :=
  rows.head?.bind List.head?

/-- `get_response(user_query, db, chat_history, llm)` (lines 54-79): build
the SQL chain (the `if not sql_chain` guard is dead code, see `chainTruthy`),
invoke it to get the SQL query, execute the query; on success return the
canned count sentence when the query contains `COUNT`, otherwise the raw
result; on an execution exception return `None`.  The second component is
the trace of external calls. -/
def get_response (env : Env) (userQuery : String) (chatHistory : List Message) :
    RespValue × List Event :=
  let sqlChain := get_sql_chain env chatHistory
  if chainTruthy sqlChain = false then
    (.msg "Unable to process request due to missing or invalid API key.", [])
  else
    let prompt := genPrompt env chatHistory userQuery
    let query := sqlChain userQuery
    let trace : List Event := [.llmCall prompt, .sqlExec query]
    match env.dbRun query with
    | .error _ => (.noResp, trace)
    | .ok rows =>
      if hasCountToken query then
        match firstScalar rows with
        | some v => (.msg ("There were " ++ v.toText ++ " decisions."), trace)
        | none => (.noResp, trace)
      else
        (.raw rows, trace)

/-- The greeting message installed at session start (lines 83-86). -/
def greeting : String :=
  "Hello! I\x27m DusturIA. Ask me anything about the Moroccan Constitutional Court.."

/-- Session state on first run: one AI greeting, no db, no llm. -/
def initialState : SessionState :=
  { chatHistory := [⟨.AI, greeting⟩], db := none, llm := none }

/-- The connection URI f-string of `init_database` (line 12). -/
def dbUri (user password host port database : String) : String :=
  "mysql+mysqlconnector://" ++ user ++ ":" ++ password ++ "@" ++ host ++ ":"
    ++ port ++ "/" ++ database

/-- `init_database` (lines 11-13): interpolate the five fields into the URI
and delegate to the external `SQLDatabase.from_uri`, modelled as the
parameter `fromUri` returning either a connection id or an exception.  No
validation of the fields is performed. -/
def init_database (fromUri : String → Except String Nat)
    (user password host port database : String) : Except String Nat :=
  fromUri (dbUri user password host port database)

/-- The form fields read by the Connect handler. -/
structure ConnectionConfig where
  host : String
  port : String
  user : String
  password : String
  database : String
deriving DecidableEq, Repr

/-- The Connect button handler (lines 108-129): inside one `try`, build the
database (storing it in `st.session_state.db` immediately on success), then
build the LLM client (`ChatGroq` or `ChatOpenAI`, outcome abstracted as
`llmInit`) and store it in `st.session_state.llm`; any exception is caught
and reported, leaving whatever assignments already ran in place. -/
def connectTrigger (fromUri : String → Except String Nat)
    (cfg : ConnectionConfig) (llmInit : Except String Nat)
    (st : SessionState) : SessionState :=
  match init_database fromUri cfg.user cfg.password cfg.host cfg.port cfg.database with
  | .error _ => st
  | .ok d =>
    match llmInit with
    | .error _ => { st with db := some d }
    | .ok l => { st with db := some d, llm := some l }

/-- The chat submit handler together with its gate (lines 131-147): if either
`db` or `llm` is missing from session state, only a warning is shown and no
chat input is accepted; otherwise, for a non-`None`, non-whitespace input,
append the Human message, call `get_response` on the updated history, and
append an AI message whose content is the response when truthy and
`"No response"` otherwise. -/
def submitTrigger (env : Env) (st : SessionState) (userQuery : Option String) :
    SessionState × List Event :=
  if st.db.isNone || st.llm.isNone then
    (st, [])
  else
    match userQuery with
    | none => (st, [])
    | some q =>
      if pyStrip q = "" then
        (st, [])
      else
        let hist1 := st.chatHistory ++ [⟨.Human, q⟩]
        let r := get_response env q hist1
        let content := if r.1.truthy then respText env r.1 else "No response"
        ({ st with chatHistory := hist1 ++ [⟨.AI, content⟩] }, r.2)

/-- States reachable from session start by any sequence of Connect and
submit triggers. -/
inductive Reachable : SessionState → Prop
  | init : Reachable initialState
  | connect (fromUri : String → Except String Nat) (cfg : ConnectionConfig)
      (llmInit : Except String Nat) {st : SessionState} :
      Reachable st → Reachable (connectTrigger fromUri cfg llmInit st)
  | submit (env : Env) (q : Option String) {st : SessionState} :
      Reachable st → Reachable (submitTrigger env st q).1

/-! ### Helper lemmas -/

/-- Mapping `Char.toUpper` over both lists preserves the leading-segment test. -/
theorem chPre_upper (p s : List Char) (h : chPre p s = true) :
    chPre (p.map Char.toUpper) (s.map Char.toUpper) = true := by
  induction p generalizing s with
  | nil => simp [chPre]
  | cons a as ih =>
    cases s with
    | nil => simp [chPre] at h
    | cons b bs =>
      simp only [chPre, Bool.and_eq_true, decide_eq_true_eq] at h
      simp only [List.map_cons, chPre, Bool.and_eq_true, decide_eq_true_eq]
      exact ⟨by rw [h.1], ih bs h.2⟩

/-- Mapping `Char.toUpper` over both lists preserves the occurrence test. -/
theorem chSub_upper (p s : List Char) (h : chSub p s = true) :
    chSub (p.map Char.toUpper) (s.map Char.toUpper) = true := by
  induction s with
  | nil =>
    cases p with
    | nil => simp [chSub, chPre]
    | cons a as => simp [chSub, chPre] at h
  | cons b bs ih =>
    simp only [chSub, Bool.or_eq_true] at h
    simp only [List.map_cons, chSub, Bool.or_eq_true]
    rcases h with h | h
    · have := chPre_upper p (b :: bs) h
      simpa using Or.inl this
    · exact Or.inr (ih h)

/-- A query containing `COUNT` in upper or lower case passes the
`"COUNT" in query.upper()` test of `get_response`. -/
theorem hasCount_of_contains (q : String)
    (h : chSub ("COUNT".toList) q.toList = true ∨
         chSub ("count".toList) q.toList = true) :
    hasCountToken q = true := by
  unfold hasCountToken
  rcases h with h | h
  · have hu := chSub_upper _ _ h
    have e : ("COUNT".toList.map Char.toUpper) = "COUNT".toList := by decide
    rwa [e] at hu
  · have hu := chSub_upper _ _ h
    have e : ("count".toList.map Char.toUpper) = "COUNT".toList := by decide
    rwa [e] at hu

/-- The Connect handler never touches the chat history. -/
theorem connect_chat_eq (fromUri : String → Except String Nat)
    (cfg : ConnectionConfig) (llmInit : Except String Nat) (st : SessionState) :
    (connectTrigger fromUri cfg llmInit st).chatHistory = st.chatHistory := by
  unfold connectTrigger
  split
  · rfl
  · split <;> rfl

/-- The submit handler only ever appends to the chat history. -/
theorem submit_chat_extends (env : Env) (st : SessionState) (q : Option String) :
    ∃ t, (submitTrigger env st q).1.chatHistory = st.chatHistory ++ t := by
  unfold submitTrigger
  split
  · exact ⟨[], by simp⟩
  · split
    · exact ⟨[], by simp⟩
    · split
      · exact ⟨[], by simp⟩
      · exact ⟨_, List.append_assoc _ _ _⟩

/-! ### Concrete environments and states used to instantiate the theorems -/

/-- A dummy environment whose LLM emits a fixed non-`COUNT` query and whose
database returns one row. -/
def envRawRow : Env where
  llm := fun _ => "SELECT year FROM dusturia_records LIMIT 10;"
  dbRun := fun _ => .ok [[.str "2022"]]
  schema := "CREATE TABLE dusturia_records (year INT)"
  renderHistory := fun _ => "[]"
  showRows := fun rows => toString (repr rows)

/-- An environment whose database raises on every query. -/
def envSqlError : Env where
  llm := fun _ => "SELECT nonexistent FROM dusturia_records;"
  dbRun := fun _ => .error "1054 Unknown column"
  schema := "CREATE TABLE dusturia_records (year INT)"
  renderHistory := fun _ => "[]"
  showRows := fun _ => ""

/-- An environment whose LLM emits a `COUNT` query and whose database
returns the scalar 42. -/
def envCount : Env where
  llm := fun _ => "SELECT COUNT(*) FROM dusturia_records;"
  dbRun := fun _ => .ok [[.int 42]]
  schema := "CREATE TABLE dusturia_records (year INT)"
  renderHistory := fun _ => "[]"
  showRows := fun _ => ""

/-- An environment whose LLM replies with the first few-shot example's SQL. -/
def envFewshot : Env where
  llm := fun _ => exampleSql2022
  dbRun := fun _ => .ok []
  schema := "CREATE TABLE dusturia_records (year INT)"
  renderHistory := fun _ => "[]"
  showRows := fun _ => ""

/-- A session state with a previously stored accessor and client. -/
def stConnected : SessionState :=
  { chatHistory := [⟨.AI, greeting⟩], db := some 1, llm := some 1 }

/-- A driver that accepts any URI, as a passwordless database server would. -/
def uriAccepts : String → Except String Nat :=
  fun _ => .ok 7

/-- A driver that rejects every URI. -/
def uriRejects : String → Except String Nat :=
  fun _ => .error "2003 cannot connect"

/-- A connection form with every field filled. -/
def cfgFull : ConnectionConfig :=
  { host := "localhost", port := "3306", user := "root", password := "pw",
    database := "dusturia" }

/-- A connection form whose required password field is the empty string. -/
def cfgEmptyPw : ConnectionConfig :=
  { host := "localhost", port := "3306", user := "root", password := "",
    database := "dusturia" }

/-! ### Claim theorems -/

/-- C6: the Interaction Controller's session-state gate — whenever the
database accessor or the LLM client is missing from session state, the submit
trigger accepts no chat input: the state is unchanged and the trace is empty,
so the answer pipeline is never invoked. -/
theorem pipeline_gate (env : Env) (st : SessionState) (q : Option String)
    (h : st.db = none ∨ st.llm = none) :
    submitTrigger env st q = (st, []) := by
  unfold submitTrigger
  rcases h with h | h <;> simp [h]

/-- Witness for `pipeline_gate`: a fresh session (no accessor, no client)
ignores a chat submission. -/
theorem pipeline_gate_wit :
    submitTrigger envRawRow initialState (some "List the decisions") =
      (initialState, []) :=
  pipeline_gate envRawRow initialState (some "List the decisions") (Or.inl rfl)

/-- C9: a submit event whose input is `None` or whitespace-only leaves the
session state unchanged and invokes no pipeline call. -/
theorem blank_input_noop (env : Env) (st : SessionState) (q : String)
    (h : pyStrip q = "") :
    submitTrigger env st none = (st, []) ∧
    submitTrigger env st (some q) = (st, []) := by
  constructor
  · unfold submitTrigger
    split
    · rfl
    · rfl
  · unfold submitTrigger
    split
    · rfl
    · simp [h]

/-- Witness for `blank_input_noop`: a connected session ignores the empty
submission and a spaces-and-tab submission. -/
theorem blank_input_noop_wit :
    submitTrigger envRawRow stConnected none = (stConnected, []) ∧
    submitTrigger envRawRow stConnected (some "  \t ") = (stConnected, []) :=
  blank_input_noop envRawRow stConnected "  \t " (by decide)

/-- C10: in every reachable session state the chat history is nonempty and
its first message is the AI greeting installed at session start; in
particular the first message always has role AI. -/
theorem first_message_ai (st : SessionState) (h : Reachable st) :
    st.chatHistory ≠ [] ∧ st.chatHistory.head? = some ⟨.AI, greeting⟩ := by
  induction h with
  | init => exact ⟨by simp [initialState], rfl⟩
  | connect fromUri cfg llmInit _ ih =>
    rw [connect_chat_eq]
    exact ih
  | @submit env q st' _ ih =>
    obtain ⟨t, ht⟩ := submit_chat_extends env st' q
    rw [ht]
    rcases ih with ⟨hne, hhd⟩
    constructor
    · intro hc
      exact hne (List.append_eq_nil.mp hc).1
    · cases hcl : st'.chatHistory with
      | nil => exact absurd hcl hne
      | cons m rest =>
        rw [hcl] at hhd
        simpa using hhd

/-- Witness for `first_message_ai`: the initial state itself. -/
theorem first_message_ai_wit :
    initialState.chatHistory ≠ [] ∧
    initialState.chatHistory.head? = some ⟨.AI, greeting⟩ :=
  first_message_ai initialState Reachable.init

/-- C3 counterexample: with a prior accessor and client stored (object id 1),
a Connect whose database construction succeeds (new id 7 via `uriAccepts`)
but whose LLM construction fails does NOT leave prior session state
untouched: the new accessor has replaced the prior one while the prior
client remains — partially-constructed state is stored. -/
theorem connect_partial_state_cex :
    connectTrigger uriAccepts cfgFull (.error "invalid api key") stConnected ≠
      stConnected ∧
    (connectTrigger uriAccepts cfgFull (.error "invalid api key") stConnected).db =
      some 7 ∧
    (connectTrigger uriAccepts cfgFull (.error "invalid api key") stConnected).llm =
      some 1 := by
  refine ⟨?_, rfl, rfl⟩
  decide

/-- C3 amended: if database construction fails, session state is untouched;
if it succeeds but LLM construction fails, the new accessor is already stored
(overwriting any prior one) and only the LLM slot keeps its prior value; if
both succeed, both are stored. -/
theorem connect_state_cases (fromUri : String → Except String Nat)
    (cfg : ConnectionConfig) (st : SessionState) :
    (∀ e llmInit,
        fromUri (dbUri cfg.user cfg.password cfg.host cfg.port cfg.database) =
          .error e →
        connectTrigger fromUri cfg llmInit st = st) ∧
    (∀ d e,
        fromUri (dbUri cfg.user cfg.password cfg.host cfg.port cfg.database) =
          .ok d →
        connectTrigger fromUri cfg (.error e) st = { st with db := some d }) ∧
    (∀ d l,
        fromUri (dbUri cfg.user cfg.password cfg.host cfg.port cfg.database) =
          .ok d →
        connectTrigger fromUri cfg (.ok l) st =
          { st with db := some d, llm := some l }) := by
  refine ⟨?_, ?_, ?_⟩ <;> intro a b h <;> unfold connectTrigger init_database <;>
    rw [h]

/-- Witness for `connect_state_cases`: a rejected URI leaves the session
untouched; an accepted URI with a successful client stores both. -/
theorem connect_state_cases_wit :
    connectTrigger uriRejects cfgFull (.ok 5) stConnected = stConnected ∧
    connectTrigger uriAccepts cfgFull (.ok 5) stConnected =
      { stConnected with db := some 7, llm := some 5 } :=
  ⟨(connect_state_cases uriRejects cfgFull stConnected).1
      "2003 cannot connect" (.ok 5) rfl,
   (connect_state_cases uriAccepts cfgFull stConnected).2.2 7 5 rfl⟩

/-- C7 counterexample: the code performs no emptiness validation — under a
driver that accepts the interpolated URI (as a passwordless database server
would), a Connect with an empty password field succeeds (no ConnectionError)
and mutates session state. -/
theorem empty_field_connect_cex :
    init_database uriAccepts cfgEmptyPw.user cfgEmptyPw.password cfgEmptyPw.host
        cfgEmptyPw.port cfgEmptyPw.database = .ok 7 ∧
    connectTrigger uriAccepts cfgEmptyPw (.ok 3) initialState ≠ initialState ∧
    (connectTrigger uriAccepts cfgEmptyPw (.ok 3) initialState).db = some 7 := by
  refine ⟨rfl, ?_, rfl⟩
  decide

/-- C7 amended: `init_database` validates nothing — it hands the interpolated
URI straight to the external driver, so the connection fails exactly when the
driver rejects that URI; and whenever it does fail, session state is left
unmutated. -/
theorem connect_error_no_mutation (fromUri : String → Except String Nat)
    (cfg : ConnectionConfig) (llmInit : Except String Nat) (st : SessionState)
    (e : String)
    (h : fromUri (dbUri cfg.user cfg.password cfg.host cfg.port cfg.database) =
      .error e) :
    init_database fromUri cfg.user cfg.password cfg.host cfg.port cfg.database =
      .error e ∧
    connectTrigger fromUri cfg llmInit st = st := by
  constructor
  · unfold init_database
    exact h
  · unfold connectTrigger init_database
    rw [h]

/-- Witness for `connect_error_no_mutation`: a rejecting driver with an
empty-password form fails and mutates nothing. -/
theorem connect_error_no_mutation_wit :
    init_database uriRejects cfgEmptyPw.user cfgEmptyPw.password cfgEmptyPw.host
        cfgEmptyPw.port cfgEmptyPw.database = .error "2003 cannot connect" ∧
    connectTrigger uriRejects cfgEmptyPw (.ok 3) initialState = initialState :=
  connect_error_no_mutation uriRejects cfgEmptyPw (.ok 3) initialState
    "2003 cannot connect" rfl

/-- C2 counterexample: when SQL execution raises, the submit handler still
appends an AI placeholder — the chat history grows by 2 (the Human message
followed by AI "No response"), not by 1 with no AI message as claimed. -/
theorem error_placeholder_cex :
    (submitTrigger envSqlError stConnected (some "List the decisions")).1.chatHistory =
      [⟨.AI, greeting⟩, ⟨.Human, "List the decisions"⟩, ⟨.AI, "No response"⟩] ∧
    (submitTrigger envSqlError stConnected (some "List the decisions")).1.chatHistory.length ≠
      stConnected.chatHistory.length + 1 := by
  constructor
  · rfl
  · decide

/-- C2 amended: for a non-blank submit with both accessor and client present,
the chat history grows by exactly 2 — the Human message followed by one AI
message — in the success case and in the SQL-error case alike; when the
pipeline returns `None` (an SQL execution error) the appended AI message is
the placeholder "No response". -/
theorem submit_appends_two (env : Env) (st : SessionState) (q : String)
    (d l : Nat) (hdb : st.db = some d) (hllm : st.llm = some l)
    (hq : ¬pyStrip q = "") :
    ∃ a, (submitTrigger env st (some q)).1.chatHistory =
        st.chatHistory ++ [⟨.Human, q⟩, ⟨.AI, a⟩] ∧
      ((get_response env q (st.chatHistory ++ [⟨.Human, q⟩])).1 = .noResp →
        a = "No response") := by
  have hgate : (st.db.isNone || st.llm.isNone) = false := by
    rw [hdb, hllm]
    rfl
  unfold submitTrigger
  rw [hgate]
  simp only [Bool.false_eq_true, if_false, if_neg hq]
  refine ⟨if (get_response env q (st.chatHistory ++ [⟨.Human, q⟩])).1.truthy then
      respText env (get_response env q (st.chatHistory ++ [⟨.Human, q⟩])).1
    else "No response", ?_, ?_⟩
  · rw [List.append_assoc]
    rfl
  · intro h0
    rw [h0]
    rfl

/-- Witness for `submit_appends_two`: with a database that raises, the AI
placeholder is appended after the Human message. -/
theorem submit_appends_two_wit :
    ∃ a, (submitTrigger envSqlError stConnected (some "hi")).1.chatHistory =
        stConnected.chatHistory ++ [⟨.Human, "hi"⟩, ⟨.AI, a⟩] ∧
      ((get_response envSqlError "hi" (stConnected.chatHistory ++ [⟨.Human, "hi"⟩])).1 = .noResp →
        a = "No response") :=
  submit_appends_two envSqlError stConnected "hi" 1 1 rfl rfl (by decide)

/-- C1 counterexample: on a successfully executed non-COUNT query the
pipeline's answer is the raw execution result itself (`RespValue.raw`), and
the trace contains exactly one LLM call — no answer-generation template is
filled and no second completion is invoked. -/
theorem no_second_llm_cex :
    (get_response envRawRow "List all years" []).1 = .raw [[.str "2022"]] ∧
    ((get_response envRawRow "List all years" []).2.filter Event.isLlm).length = 1 := by
  constructor
  · rfl
  · rfl

/-- C1 amended: for every successful non-COUNT query, `get_response` returns
the raw SQL execution result directly as the final answer; its trace is the
single SQL-generation LLM call followed by the SQL execution — this code has
no second LLM completion. -/
theorem raw_result_returned (env : Env) (q : String) (hist : List Message)
    (rows : List (List Value))
    (hok : env.dbRun (get_sql_chain env hist q) = .ok rows)
    (hnc : hasCountToken (get_sql_chain env hist q) = false) :
    get_response env q hist =
      (.raw rows,
       [.llmCall (genPrompt env hist q), .sqlExec (get_sql_chain env hist q)]) := by
  simp [get_response, chainTruthy, hok, hnc]

/-- Witness for `raw_result_returned`: the concrete one-row environment. -/
theorem raw_result_returned_wit :
    get_response envRawRow "Show the years present" [] =
      (.raw [[.str "2022"]],
       [.llmCall (genPrompt envRawRow [] "Show the years present"),
        .sqlExec (get_sql_chain envRawRow [] "Show the years present")]) :=
  raw_result_returned envRawRow "Show the years present" [] [[.str "2022"]]
    rfl (by decide)

/-- C4: at a submit issued with no usable LLM credential (the credential is
not an input of `get_response` at all), the pipeline still issues the LLM
completion call and does not return the missing-key message: the
`if not sql_chain` guard at lines 56-57 is dead code because `get_sql_chain`
unconditionally returns a (truthy) chain object. -/
theorem dead_credential_guard :
    ((get_response envSqlError "How many decisions are there?" []).2.filter Event.isLlm).length = 1 ∧
    (get_response envSqlError "How many decisions are there?" []).1 ≠
      .msg "Unable to process request due to missing or invalid API key." := by
  constructor
  · rfl
  · decide

/-- C5: when the generated query contains COUNT in upper or lower case and
its execution succeeds with first scalar `v` (`result[0][0]`), `get_response`
returns exactly "There were {v} decisions." and the trace shows a single LLM
call — the raw result is not passed to any second completion. -/
theorem count_shortcut (env : Env) (q : String) (hist : List Message)
    (rows : List (List Value)) (v : Value)
    (hc : chSub ("COUNT".toList) (get_sql_chain env hist q).toList = true ∨
          chSub ("count".toList) (get_sql_chain env hist q).toList = true)
    (hok : env.dbRun (get_sql_chain env hist q) = .ok rows)
    (hv : firstScalar rows = some v) :
    get_response env q hist =
      (.msg ("There were " ++ v.toText ++ " decisions."),
       [.llmCall (genPrompt env hist q), .sqlExec (get_sql_chain env hist q)]) ∧
    ((get_response env q hist).2.filter Event.isLlm).length = 1 := by
  have hcnt := hasCount_of_contains _ hc
  have h1 : get_response env q hist =
      (.msg ("There were " ++ v.toText ++ " decisions."),
       [.llmCall (genPrompt env hist q), .sqlExec (get_sql_chain env hist q)]) := by
    simp [get_response, chainTruthy, hok, hcnt, hv]
  exact ⟨h1, by rw [h1]; rfl⟩

/-- Witness for `count_shortcut`: the COUNT environment returning scalar 42. -/
theorem count_shortcut_wit :
    get_response envCount "How many decisions are there?" [] =
      (.msg ("There were " ++ (Value.int 42).toText ++ " decisions."),
       [.llmCall (genPrompt envCount [] "How many decisions are there?"),
        .sqlExec (get_sql_chain envCount [] "How many decisions are there?")]) ∧
    ((get_response envCount "How many decisions are there?" []).2.filter Event.isLlm).length = 1 :=
  count_shortcut envCount "How many decisions are there?" [] [[.int 42]]
    (.int 42) (Or.inl (by decide)) rfl rfl

/-- C8: the first few-shot example — the question "Retrieve all decisions
made in the year 2022." paired with its SQL — appears verbatim as a constant
inside every filled SQL-generation prompt, and when the model replies with
exactly that SQL the chain returns it unmodified. -/
theorem fewshot_example_verbatim (env : Env) (hist : List Message)
    (h : env.llm (genPrompt env hist "Retrieve all decisions made in the year 2022.") =
      exampleSql2022) :
    (∃ pre post,
        genPrompt env hist "Retrieve all decisions made in the year 2022." =
          pre ++ (exampleQ2022 ++ exampleSql2022) ++ post) ∧
    get_sql_chain env hist "Retrieve all decisions made in the year 2022." =
      exampleSql2022 := by
  constructor
  · refine ⟨tplA ++ env.schema ++ tplB ++ env.renderHistory hist ++ tplC,
      tplD ++ "Retrieve all decisions made in the year 2022." ++ tplE, ?_⟩
    unfold genPrompt fillSqlTemplate
    simp only [String.append_assoc]
  · exact h

/-- Witness for `fewshot_example_verbatim`: an LLM that echoes the example's
SQL. -/
theorem fewshot_example_verbatim_wit :
    (∃ pre post,
        genPrompt envFewshot [] "Retrieve all decisions made in the year 2022." =
          pre ++ (exampleQ2022 ++ exampleSql2022) ++ post) ∧
    get_sql_chain envFewshot [] "Retrieve all decisions made in the year 2022." =
      exampleSql2022 :=
  fewshot_example_verbatim envFewshot [] rfl
